import Mathlib

/-!
Verification development for the client-side session layer of the node-opcua
client SDK (`packages/node-opcua-client/source/private/client_session_impl.ts`).

The development shallowly embeds the parts of `ClientSessionImpl` that the
specification talks about:

* the per-service response reshaping of `read` / `write` (scalar in, scalar
  out; array in, array out),
* `evaluateRemainingLifetime`,
* `close` / `emitCloseEvent` idempotence,
* the single-transaction flow `performMessageTransaction` →
  `#reprocessRequest` → `_performMessageTransaction` →
  `#_recreate_session_and_reperform_transaction`,
* the repair mutual-exclusion guard `recursive_repair_detector`, and
* the pending-queue dispatcher state machine (enqueue while non-empty,
  drain one item per completion).

Callbacks in the source are continuation-passing; the embedding turns each
synchronous decision chain into a pure function from the session state and
an oracle describing the collaborators (the channel adapter and the repair
routine of `reconnection.ts`) to the delivered result and the next state.
-/

namespace ClientSessionModel

/-! ## Status codes and error values

The source matches errors by their message text (for example
`err.message.match(/BadSessionIdInvalid/)`).  Messages are embedded as an
inductive type; a transport error or a bad service result carries the
status code that its message text would mention. -/

/-- Status code constant: `StatusCodes.Good` (severity bits all zero). -/
def StatusCodes.Good : Nat := 0

/-- Status code constant: `StatusCodes.BadSessionIdInvalid` (0x80250000). -/
def StatusCodes.BadSessionIdInvalid : Nat := 0x80250000

/-- Error values produced by the session layer.  Each constructor stands for
one distinct error message built in `client_session_impl.ts`. -/
inductive ErrMsg : Type where
  /-- `Session has been closed and should not be used to perform a
  transaction anymore` (raised in `performMessageTransaction` and in
  `_performMessageTransaction` when `_client` is null). -/
  | sessionClosed : ErrMsg
  /-- `ClientSession is closed !` (raised in `_defaultRequest` when
  `_closeEventHasBeenEmitted` is set). -/
  | clientSessionClosed : ErrMsg
  /-- `Invalid Channel BadConnectionClosed` (raised in
  `_performMessageTransaction` when `isChannelValid()` is false). -/
  | invalidChannel : ErrMsg
  /-- `Cannot recreate session` (raised in
  `#_recreate_session_and_reperform_transaction` when
  `recursive_repair_detector >= 1`). -/
  | cannotRecreate : ErrMsg
  /-- `Internal Error` (raised when the response is missing or of the wrong
  class in a service method such as `read` or `write`). -/
  | internalError : ErrMsg
  /-- A transport-level error delivered by the secure channel; its message
  text mentions the given status code. -/
  | transport (code : Nat) : ErrMsg
  /-- ` ServiceResult is <code> request was <name>` built in
  `_performMessageTransaction` when the response header carries a service
  result other than `Good`; its message text mentions the code. -/
  | serviceResultIs (code : Nat) : ErrMsg
  /-- The service-result error built inside `write` /`readVariableValue`
  (`new Error(response.responseHeader.serviceResult.toString())`). -/
  | statusNotGood (code : Nat) : ErrMsg
  /-- Failure of the `assert(...)` length check in `write` /
  `readVariableValue`. -/
  | assertionFailed : ErrMsg
  /-- An error propagated from the external repair routine
  `repair_client_session`. -/
  | repairFailed : ErrMsg
  /-- An error propagated from the external opaque-structure resolver
  `promoteOpaqueStructure`. -/
  | promoteFailed : ErrMsg
deriving DecidableEq, Repr

/-- Embedding of `err.message.match(/BadSessionIdInvalid/)`: the error
messages whose text mentions `BadSessionIdInvalid` are exactly the
transport and service-result errors carrying that status code. -/
def mentionsBadSessionIdInvalid : ErrMsg → Bool
  | ErrMsg.transport code => code == StatusCodes.BadSessionIdInvalid
  | ErrMsg.serviceResultIs code => code == StatusCodes.BadSessionIdInvalid
  | _ => false

/-! ## Request kinds

`performMessageTransaction` singles out `PublishRequest`,
`ActivateSessionRequest` and `CloseSessionRequest`;
`#reprocessRequest` additionally tests
`request.constructor.name !== "ActivateSessionRequest"`.  Every other
request class behaves identically, so the embedding keeps one
representative `other` kind. -/

/-- Kind of a request object, as discriminated by the dispatcher. -/
inductive ReqKind : Type where
  | publish : ReqKind
  | activateSession : ReqKind
  | closeSession : ReqKind
  | other : ReqKind
deriving DecidableEq, Repr

/-- The three privileged request classes tested by the `instanceof` chain in
`performMessageTransaction` (lines 1450-1456). -/
def privileged : ReqKind → Bool
  | ReqKind.publish => true
  | ReqKind.activateSession => true
  | ReqKind.closeSession => true
  | ReqKind.other => false

/-! ## Session lifetime (`evaluateRemainingLifetime`) -/

/-- Embedding of `evaluateRemainingLifetime` (lines 1619-1623):
`expiryTime = lastRequestSentTime + timeout; max(0, expiryTime - now)`.
Times are in milliseconds since the epoch, as integers. -/
def evaluateRemainingLifetime (lastRequestSentTime timeout now : Int) : Int :=
  max 0 (lastRequestSentTime + timeout - now)

/-! ## Close idempotence (`close`, `emitCloseEvent`) -/

/-- The slice of session state involved in closing. `clientPresent` is the
`_client !== null` test; `closeEventEmitted` is `_closeEventHasBeenEmitted`.
`emittedEvents` counts `session_closed` emissions and `closeRequestsSent`
counts network close requests issued through the owning client. -/
structure CState : Type where
  clientPresent : Bool
  closeEventEmitted : Bool
  emittedEvents : Nat
  closeRequestsSent : Nat
  publishEngineActive : Bool
deriving DecidableEq, Repr

/-- Embedding of `emitCloseEvent` (lines 1220-1226): emit `session_closed`
only when `_closeEventHasBeenEmitted` is still false, then set the flag. -/
def emitCloseEvent (s : CState) : CState :=
  if s.closeEventEmitted then s
  else { s with closeEventEmitted := true, emittedEvents := s.emittedEvents + 1 }

/-- Modelled from the spec: the owning client collaborator
`_client.closeSession(session, deleteSubscription, cb)` invoked by `close`
is implemented outside this file.  Per the specification (§4.4 and §6) it
requests session closure from the server (one network action), emits the
`session_closed` notification through `emitCloseEvent`, and only then marks
the session closed (detaching it from the client, so `_client` becomes
null). -/
def clientCloseSession (s : CState) : CState :=
  let s1 := { s with closeRequestsSent := s.closeRequestsSent + 1 }
  let s2 := emitCloseEvent s1
  { s2 with clientPresent := false }

/-- Embedding of `close` (lines 1645-1668): if `_client` is already null the
callback fires immediately and nothing else happens; otherwise the publish
engine is terminated and the owning client is asked to close the session. -/
def close (s : CState) : CState :=
  if s.clientPresent = false then s
  else clientCloseSession { s with publishEngineActive := false }

/-! ## Per-service response reshaping (`read`, `write`) -/

/-- The body of a service response, reduced to the fields the reshaping
logic inspects: the top-level service result and the (possibly absent)
results array. -/
structure ServiceResponse (α : Type) : Type where
  serviceResult : Nat
  results : Option (List α)
deriving DecidableEq, Repr

/-- The shape of a value delivered to the caller: a scalar (possibly absent,
mirroring `results[0]` on an empty array, which is `undefined` in the
source language) or an array. -/
inductive Shape (α : Type) : Type where
  | scalar (x : Option α) : Shape α
  | arr (xs : List α) : Shape α
deriving DecidableEq, Repr

/-- Embedding of the response-processing callback of `read`
(lines 1199-1217).  `isArray` records whether the caller passed an array;
`err` is the error handed over by `performMessageTransaction`;
`wrongClass` models `!(response instanceof ReadResponse)`;
`promoteError` is the outcome of the external `promoteOpaqueStructure`
collaborator.  On success the results array is defaulted to `[]` when the
server omitted it, and the callback receives `results` or `results[0]`
according to `isArray`. -/
def read_processResponse {α β : Type} (isArray : Bool) (nodesToRead : List β)
    (err : Option ErrMsg) (wrongClass : Bool)
    (response : Option (ServiceResponse α)) (promoteError : Option ErrMsg) :
    Except ErrMsg (Shape α) :=
  match err with
  | some e => Except.error e
  | none =>
    match response with
    | none => Except.error ErrMsg.internalError
    | some r =>
      if wrongClass then Except.error ErrMsg.internalError
      else
        match promoteError with
        | some e => Except.error e
        | none =>
          let results := r.results.getD []
          Except.ok (if isArray then Shape.arr results else Shape.scalar results[0]?)

/-- Embedding of the response-processing callback of `write`
(lines 969-987): error and wrong-class checks, a service-result check, the
`response.results || []` default, the strict
`assert(nodesToWrite.length === response.results.length)` (an assertion
failure throws, embedded as an error outcome), and the reshape. -/
def write_processResponse {α β : Type} (isArray : Bool) (nodesToWrite : List β)
    (err : Option ErrMsg) (wrongClass : Bool)
    (response : Option (ServiceResponse α)) :
    Except ErrMsg (Shape α) :=
  match err with
  | some e => Except.error e
  | none =>
    match response with
    | none => Except.error ErrMsg.internalError
    | some r =>
      if wrongClass then Except.error ErrMsg.internalError
      else if r.serviceResult ≠ StatusCodes.Good then
        Except.error (ErrMsg.statusNotGood r.serviceResult)
      else
        let results := r.results.getD []
        if nodesToWrite.length = results.length then
          Except.ok (if isArray then Shape.arr results else Shape.scalar results[0]?)
        else Except.error ErrMsg.assertionFailed

/-! ## Single-transaction flow

`performMessageTransaction` (lines 1445-1490) decides closed / privileged /
enqueue / immediate; `#reprocessRequest` (lines 1491-1529) wraps the network
attempt with the invalid-session routing; `_performMessageTransaction`
(lines 1531-1593) talks to the channel; and
`#_recreate_session_and_reperform_transaction` (lines 2132-2150) guards and
runs the repair.  The channel adapter is an oracle `chan : Nat → ChanOutcome`
giving the outcome of the n-th request actually sent on the channel, and
`repairResult` is the outcome of the external `repair_client_session`
routine of `reconnection.ts`. -/

/-- Outcome of one request/response exchange as delivered by the channel
adapter `_client.performMessageTransaction`: a transport error carrying a
status code in its message, or a response whose header carries the given
top-level service result. -/
inductive ChanOutcome : Type where
  | err (code : Nat) : ChanOutcome
  | ok (serviceResult : Nat) : ChanOutcome
deriving DecidableEq, Repr

/-- The session state visible to the single-transaction flow.
`clientPresent` is `_client !== null`; `channelValid` is `isChannelValid()`;
`reconnectingFlag` is the `isReconnecting` getter; `pendingCount` is
`_reconnecting.pendingTransactions.length`; `sendCount` numbers the requests
actually handed to the channel adapter (it indexes the oracle);
`repairsStarted` is a ghost counter of entered repair sequences. -/
structure FState : Type where
  clientPresent : Bool
  channelValid : Bool
  reconnectingFlag : Bool
  closeEventEmitted : Bool
  recursive_repair_detector : Nat
  lastRequestSentTime : Int
  pendingCount : Nat
  sendCount : Nat
  repairsStarted : Nat
deriving DecidableEq, Repr

/-- Mapping from a channel outcome to the `(err, response)` pair that the
callback of `_performMessageTransaction` receives (lines 1555-1592): a
transport error is passed through; a response with a service result other
than `Good` is turned into a ` ServiceResult is ...` error delivered
together with the response; a good response is delivered without error.
The response is represented by its top-level service result. -/
def outcomeToResult (o : ChanOutcome) : Option ErrMsg × Option Nat :=
  match o with
  | ChanOutcome.err code => (some (ErrMsg.transport code), none)
  | ChanOutcome.ok serviceResult =>
    if serviceResult ≠ StatusCodes.Good then
      (some (ErrMsg.serviceResultIs serviceResult), some serviceResult)
    else (none, some serviceResult)

/-- Embedding of `_performMessageTransaction` (lines 1531-1593): fail when
`_client` is null; fail with `Invalid Channel BadConnectionClosed` when the
channel is not open, before anything is sent and before
`lastRequestSentTime` is updated; otherwise stamp `lastRequestSentTime`,
hand the request to the channel adapter and translate its outcome. -/
def _performMessageTransaction (now : Int) (chan : Nat → ChanOutcome)
    (st : FState) : (Option ErrMsg × Option Nat) × FState :=
  if st.clientPresent = false then ((some ErrMsg.sessionClosed, none), st)
  else if st.channelValid = false then ((some ErrMsg.invalidChannel, none), st)
  else
    let st1 := { st with lastRequestSentTime := now, sendCount := st.sendCount + 1 }
    (outcomeToResult (chan st.sendCount), st1)

/-- Result of submitting one transaction, as seen by its caller:
the completion fired with `(err, response)`; or the transaction was put on
the pending queue (its completion fires later, when the queue drains); or a
one-shot `session_restored` listener was registered and the flow suspended
(the invalid-session retry path while the client is reconnecting). -/
inductive DispatchOut : Type where
  | completed (err : Option ErrMsg) (respServiceResult : Option Nat) : DispatchOut
  | enqueued : DispatchOut
  | waitingRestore : DispatchOut
deriving DecidableEq, Repr

/-- Embedding of `#_recreate_session_and_reperform_transaction`
(lines 2132-2150): fail fast with `Cannot recreate session` when
`recursive_repair_detector >= 1`; otherwise increment the guard, run the
external `repair_client_session` routine (outcome `repairResult`),
decrement the guard, and on success replay the original request directly
through `_performMessageTransaction`. -/
def recreate_session_and_reperform_transaction (now : Int)
    (chan : Nat → ChanOutcome) (repairResult : Option ErrMsg)
    (st : FState) : DispatchOut × FState :=
  if st.recursive_repair_detector ≥ 1 then
    (DispatchOut.completed (some ErrMsg.cannotRecreate) none, st)
  else
    let st1 := { st with
      recursive_repair_detector := st.recursive_repair_detector + 1,
      repairsStarted := st.repairsStarted + 1 }
    let st2 := { st1 with
      recursive_repair_detector := st1.recursive_repair_detector - 1 }
    match repairResult with
    | some e => (DispatchOut.completed (some e) none, st2)
    | none =>
      let r := _performMessageTransaction now chan st2
      (DispatchOut.completed r.1.1 r.1.2, r.2)

/-- Embedding of `#reprocessRequest` (lines 1491-1529), restricted to the
part that settles the submitted transaction itself (the queue drain it
performs afterwards is modelled by the dispatcher state machine below):
perform the transaction; when the error message mentions
`BadSessionIdInvalid` and the request is not an `ActivateSessionRequest`,
either register a one-shot `session_restored` retry (when reconnecting) or
enter the repair path; otherwise deliver the result. -/
def reprocessRequest (now : Int) (chan : Nat → ChanOutcome)
    (repairResult : Option ErrMsg) (st : FState) (kind : ReqKind) :
    DispatchOut × FState :=
  let r := _performMessageTransaction now chan st
  match r.1.1 with
  | some e =>
    if mentionsBadSessionIdInvalid e ∧ kind ≠ ReqKind.activateSession then
      if r.2.reconnectingFlag then (DispatchOut.waitingRestore, r.2)
      else recreate_session_and_reperform_transaction now chan repairResult r.2
    else (DispatchOut.completed (some e) r.1.2, r.2)
  | none => (DispatchOut.completed none r.1.2, r.2)

/-- Embedding of `performMessageTransaction` (lines 1445-1490): fail when
`_client` is null; send the three privileged request kinds straight to
`_performMessageTransaction`; append to the pending queue when it is
non-empty; otherwise run `#reprocessRequest`. -/
def performMessageTransaction (now : Int) (chan : Nat → ChanOutcome)
    (repairResult : Option ErrMsg) (st : FState) (kind : ReqKind) :
    DispatchOut × FState :=
  if st.clientPresent = false then
    (DispatchOut.completed (some ErrMsg.sessionClosed) none, st)
  else if privileged kind then
    let r := _performMessageTransaction now chan st
    (DispatchOut.completed r.1.1 r.1.2, r.2)
  else if st.pendingCount ≠ 0 then
    (DispatchOut.enqueued, { st with pendingCount := st.pendingCount + 1 })
  else reprocessRequest now chan repairResult st kind

/-- Embedding of `_defaultRequest` (lines 2061-2080), up to the transaction
submission: when `_closeEventHasBeenEmitted` is set, fail with
`ClientSession is closed !` without submitting; otherwise submit through
`performMessageTransaction` (the error post-processing of its callback
inspects but never alters the outcome). -/
def _defaultRequest (now : Int) (chan : Nat → ChanOutcome)
    (repairResult : Option ErrMsg) (st : FState) (kind : ReqKind) :
    DispatchOut × FState :=
  if st.closeEventEmitted then
    (DispatchOut.completed (some ErrMsg.clientSessionClosed) none, st)
  else performMessageTransaction now chan repairResult st kind

/-! ## Repair guard (`recursive_repair_detector`)

`#_recreate_session_and_reperform_transaction` increments
`recursive_repair_detector` when it starts a repair and decrements it in
the completion callback of `repair_client_session`; a second invocation
that arrives while the guard is raised fails fast.  The interleaving of
attempts and repair completions is modelled as a state machine: an
`attemptRepair` event is one invocation of the method reaching the guard
check, a `finishRepair` event is the completion callback of the repair
routine firing. -/

/-- Repair-guard state. `repairActive` tracks whether a
`repair_client_session` call is outstanding (its completion callback has
not yet fired); `repairsStarted` counts recreation sequences actually
started; `failFastErrors` logs the errors returned to attempts rejected by
the guard. -/
structure RState : Type where
  recursive_repair_detector : Nat
  repairActive : Bool
  repairsStarted : Nat
  failFastErrors : List ErrMsg
deriving DecidableEq, Repr

/-- Events of the repair guard machine. -/
inductive REv : Type where
  | attemptRepair : REv
  | finishRepair : REv
deriving DecidableEq, Repr

/-- One step of the repair guard machine, mirroring lines 2132-2150: an
attempt finding `recursive_repair_detector >= 1` is answered immediately
with `Cannot recreate session` and starts nothing; an attempt finding the
guard down increments it and starts the repair routine; the completion of
the repair routine decrements the guard.  A `finishRepair` event without an
outstanding repair cannot occur and leaves the state unchanged. -/
def repairStep (s : RState) : REv → RState
  | REv.attemptRepair =>
    if s.recursive_repair_detector ≥ 1 then
      { s with failFastErrors := s.failFastErrors ++ [ErrMsg.cannotRecreate] }
    else
      { s with
        recursive_repair_detector := s.recursive_repair_detector + 1,
        repairActive := true,
        repairsStarted := s.repairsStarted + 1 }
  | REv.finishRepair =>
    if s.repairActive then
      { s with
        recursive_repair_detector := s.recursive_repair_detector - 1,
        repairActive := false }
    else s

/-- The repair guard at session creation: the field initializer
`recursive_repair_detector = 0` (line 224), no repair outstanding. -/
def repairInit : RState :=
  { recursive_repair_detector := 0, repairActive := false,
    repairsStarted := 0, failFastErrors := [] }

/-- Running the repair guard machine over a sequence of events. -/
def repairRun (s : RState) (es : List REv) : RState := es.foldl repairStep s

/-- Invariant of the repair guard: the detector never exceeds 1 and is
raised exactly while a repair is outstanding. -/
def RInv (s : RState) : Prop :=
  s.recursive_repair_detector = (if s.repairActive then 1 else 0)

/-! ## Dispatcher queue state machine

The queueing side of `performMessageTransaction` / `#reprocessRequest`.
Transactions are identified by numbers; the environment submits
transactions, the channel adapter completes in-flight ones, and the owning
client toggles its reconnecting state and emits `session_restored`.

The completion callback installed by `#reprocessRequest` (lines 1498-1528)
has two sides.  In its ordinary branch (no error, or an error whose
message does not match `BadSessionIdInvalid`, or an
`ActivateSessionRequest`) it first fires the caller callback and then pops
at most one queued transaction off the pending queue and dispatches it
through `#reprocessRequest` (the drain, lines 1520-1527).  In its
invalid-session branch it returns before the drain (line 1518): while the
client is reconnecting, the transaction is parked on a one-shot
`session_restored` listener (lines 1510-1514) and re-dispatched through
`#reprocessRequest` when the event fires; otherwise
`#_recreate_session_and_reperform_transaction` is invoked with the bare
caller callback (line 1516), so a guard rejection (line 2137), a repair
failure (line 2145) and the post-repair replay (line 2148, sent through
`_performMessageTransaction`) all complete, or re-send, the transaction
without ever popping the pending queue.

In-flight entries carry the transaction id, its origin (`priv` for
privileged direct sends, `direct` for ordinary immediate sends, `queued`
for transactions dispatched out of the pending queue) and a flag telling
whether the entry completes through a bare callback (`true`: privileged
sends and post-repair replays) or through the drain-carrying
`#reprocessRequest` continuation (`false`). -/

/-- Origin tag of an in-flight transaction. -/
inductive Origin : Type where
  | priv : Origin
  | direct : Origin
  | queued : Origin
deriving DecidableEq, Repr

/-- Outcome of a transaction as discriminated by the completion callback
of `#reprocessRequest`: an ordinary outcome (success, or an error whose
message does not match `BadSessionIdInvalid`), or an invalid-session
error.  For the latter, the asynchronous repair subsequence — guard check,
external `repair_client_session`, detector bookkeeping, modelled in detail
by the `RState` machine and the single-transaction flow above — is
compressed into its result: `repairOk = true` means the guard passed and
the repair succeeded (the replay is sent with the bare caller callback,
line 2148); `repairOk = false` means the guard rejected the attempt
(line 2137) or the repair failed (line 2145) and the caller receives that
error. -/
inductive DOutcome : Type where
  | ordinary : DOutcome
  | invalidSession (repairOk : Bool) : DOutcome
deriving DecidableEq, Repr

/-- Dispatcher state.  `queue` is `_reconnecting.pendingTransactions`
(transaction ids in arrival order); `inFlight` holds the transactions
currently awaiting their channel outcome, each tagged with its origin and
its bare-callback flag; `parked` holds the transactions waiting on a
one-shot `session_restored` listener, in registration order;
`reconnectingFlag` is the `isReconnecting` getter; `completed` logs
completions in the order the caller callbacks fired; `sentLog` logs, in
order, every transaction handed to `_performMessageTransaction`;
`failedClosed` logs submissions rejected because `_client` is null;
`qlog` is a ghost log of every transaction ever placed on the queue, in
arrival order. -/
structure DState : Type where
  clientPresent : Bool
  reconnectingFlag : Bool
  queue : List Nat
  inFlight : List ((Nat × Origin) × Bool)
  parked : List (Nat × Origin)
  completed : List (Nat × Origin)
  sentLog : List Nat
  failedClosed : List Nat
  qlog : List Nat
deriving DecidableEq, Repr

/-- Events of the dispatcher machine: the application submits a
transaction with a request of some kind; the channel adapter completes an
in-flight transaction with some outcome; the owning client changes its
reconnecting state; the `session_restored` notification fires. -/
inductive DEv : Type where
  | submit (t : Nat) (kind : ReqKind) : DEv
  | complete (t : Nat) (outcome : DOutcome) : DEv
  | setReconnecting (b : Bool) : DEv
  | sessionRestored : DEv
deriving DecidableEq, Repr

/-- Hand transaction `t` to the channel adapter; `bare` records whether
its completion fires a bare callback (no drain continuation). -/
def dsend (s : DState) (t : Nat) (o : Origin) (bare : Bool) : DState :=
  { s with inFlight := s.inFlight ++ [((t, o), bare)],
           sentLog := s.sentLog ++ [t] }

/-- The submission side of `performMessageTransaction` (lines 1445-1490):
closed sessions fail the caller at once; privileged kinds are sent
directly with the bare caller callback; with a non-empty pending queue the
transaction is appended to its tail; otherwise it is sent immediately
through `#reprocessRequest`, hence with the drain-carrying
continuation. -/
def submitStep (s : DState) (t : Nat) (kind : ReqKind) : DState :=
  if s.clientPresent = false then
    { s with failedClosed := s.failedClosed ++ [t] }
  else if privileged kind then dsend s t Origin.priv true
  else if s.queue ≠ [] then
    { s with queue := s.queue ++ [t], qlog := s.qlog ++ [t] }
  else dsend s t Origin.direct false

/-- Remove the first in-flight entry for transaction `t`, returning that
entry and the remaining in-flight list. -/
def takeInFlight :
    List ((Nat × Origin) × Bool) → Nat →
    Option (((Nat × Origin) × Bool) × List ((Nat × Origin) × Bool))
  | [], _ => none
  | p :: rest, t =>
    if p.1.1 = t then some (p, rest)
    else (takeInFlight rest t).map (fun q => (q.1, p :: q.2))

/-- The completion side, following the branch structure of the callback in
`#reprocessRequest` (lines 1498-1528) and of
`#_recreate_session_and_reperform_transaction` (lines 2132-2150):

* a bare entry (privileged send or post-repair replay) completes the
  caller whatever the outcome — a bare callback has no invalid-session
  routing and no drain;
* a drain entry with an ordinary outcome fires the caller callback and
  then pops the head of the pending queue, if any, dispatching it through
  `#reprocessRequest` (lines 1520-1527);
* a drain entry with an invalid-session outcome returns before the drain
  (line 1518): while reconnecting, the transaction is parked on a
  `session_restored` listener, its caller not yet completed
  (lines 1510-1514); otherwise, when the repair succeeds the transaction
  is re-sent through `_performMessageTransaction` with the bare caller
  callback (line 2148), and when the guard rejects or the repair fails
  the caller receives that error (lines 2137 and 2145) — in none of these
  cases is the pending queue popped.

Completing a transaction that is not in flight is a no-op. -/
def completeStep (s : DState) (t : Nat) (outcome : DOutcome) : DState :=
  match takeInFlight s.inFlight t with
  | none => s
  | some (e, rest) =>
    if e.2 then
      { s with inFlight := rest, completed := s.completed ++ [e.1] }
    else
      match outcome with
      | DOutcome.ordinary =>
        match s.queue with
        | [] => { s with inFlight := rest, completed := s.completed ++ [e.1] }
        | u :: q =>
          dsend { s with inFlight := rest, completed := s.completed ++ [e.1],
                         queue := q }
            u Origin.queued false
      | DOutcome.invalidSession repairOk =>
        if s.reconnectingFlag then
          { s with inFlight := rest, parked := s.parked ++ [e.1] }
        else if repairOk then
          { s with inFlight := rest ++ [(e.1, true)],
                   sentLog := s.sentLog ++ [t] }
        else
          { s with inFlight := rest, completed := s.completed ++ [e.1] }

/-- The `session_restored` event: every parked one-shot listener fires in
registration order, re-dispatching its transaction through
`#reprocessRequest` (line 1513) — straight to the channel adapter, with
the drain-carrying continuation again. -/
def restoredStep (s : DState) : DState :=
  { s with
    inFlight := s.inFlight ++ s.parked.map (fun p => (p, false)),
    sentLog := s.sentLog ++ s.parked.map Prod.fst,
    parked := [] }

/-- One step of the dispatcher machine. -/
def dstep (s : DState) : DEv → DState
  | DEv.submit t kind => submitStep s t kind
  | DEv.complete t outcome => completeStep s t outcome
  | DEv.setReconnecting b => { s with reconnectingFlag := b }
  | DEv.sessionRestored => restoredStep s

/-- Running the dispatcher over a sequence of events. -/
def drun (s : DState) (es : List DEv) : DState := es.foldl dstep s

/-- An initial dispatcher state for the reconnection scenario the
specification describes: the pending queue holds `q` (placed there while
the channel was being repaired), and at most one transaction — `d`, whose
completion will start the drain — is in flight, with the drain-carrying
continuation.  Logs start empty and the ghost queue log starts at `q`. -/
def initState (present r : Bool) (q : List Nat) (d : Option Nat) : DState :=
  { clientPresent := present,
    reconnectingFlag := r,
    queue := q,
    inFlight := match d with
      | none => []
      | some t => [((t, Origin.direct), false)],
    parked := [],
    completed := [],
    sentLog := [],
    failedClosed := [],
    qlog := q }

/-- The queued-origin ids of a completed or parked log. -/
def queuedIds (l : List (Nat × Origin)) : List Nat :=
  (l.filter (fun p => p.2 = Origin.queued)).map Prod.fst

/-- The queued-origin ids of an in-flight log. -/
def flightQueuedIds (l : List ((Nat × Origin) × Bool)) : List Nat :=
  queuedIds (l.map Prod.fst)

/-- The in-flight entries whose completion carries the drain
continuation. -/
def drainFlights (l : List ((Nat × Origin) × Bool)) :
    List ((Nat × Origin) × Bool) :=
  l.filter (fun e => e.2 = false)

/-- The in-flight bare entries of queued origin (post-repair replays of
queued transactions). -/
def bareQueuedIds (l : List ((Nat × Origin) × Bool)) : List Nat :=
  queuedIds ((l.filter (fun e => e.2 = true)).map Prod.fst)

/-- The queued transactions that are live: dispatched out of the queue but
not yet completed — in flight, or parked awaiting `session_restored`. -/
def liveQueuedIds (s : DState) : List Nat :=
  flightQueuedIds s.inFlight ++ queuedIds s.parked

/-- Dispatcher invariant: (i) while the queue is non-empty, the
drain-carrying in-flight entries, the parked listeners and the bare
replays of queued transactions number at most one in total — there is at
most one drain worker, and once a repair consumes it (by replaying with a
bare callback or failing) none is left; (ii) at most one queued
transaction is live at any time; (iii) the ghost queue log splits into the
queued transactions already completed (in completion order), the at most
one live queued transaction, and the queue contents — so the queued
transactions that do complete do so in strict arrival order. -/
def DInv (s : DState) : Prop :=
  (s.queue ≠ [] →
    (drainFlights s.inFlight).length + s.parked.length
      + (bareQueuedIds s.inFlight).length ≤ 1) ∧
  (liveQueuedIds s).length ≤ 1 ∧
  queuedIds s.completed ++ liveQueuedIds s ++ s.queue = s.qlog

/-- A session state ready for an ordinary immediate dispatch: client
attached, channel open, not reconnecting, no repair in progress, empty
pending queue, nothing sent yet. -/
def readyState (t0 : Int) : FState :=
  { clientPresent := true, channelValid := true, reconnectingFlag := false,
    closeEventEmitted := false, recursive_repair_detector := 0,
    lastRequestSentTime := t0, pendingCount := 0, sendCount := 0,
    repairsStarted := 0 }

/-- A channel oracle whose first answer is a `BadSessionIdInvalid`
transport failure and whose later answers are good responses. -/
def invalidThenGoodChan : Nat → ChanOutcome :=
  fun n => if n = 0 then ChanOutcome.err StatusCodes.BadSessionIdInvalid
           else ChanOutcome.ok StatusCodes.Good

/-! ## Theorems -/

/-- Helper: `_performMessageTransaction` never touches the ghost repair
counter. -/
theorem _performMessageTransaction_repairsStarted (now : Int)
    (chan : Nat → ChanOutcome) (st : FState) :
    (_performMessageTransaction now chan st).2.repairsStarted = st.repairsStarted := by
  simp only [_performMessageTransaction]
  split
  · rfl
  · split <;> rfl

/-- C8: `evaluateRemainingLifetime()` equals
`max(0, timeout - (now - lastRequestSentTime))`; it is never negative; it
returns 0 for every `now >= lastRequestSentTime + timeout`; and for fixed
`lastRequestSentTime` and `timeout` it is monotonically non-increasing as
`now` advances. -/
theorem C8_lifetime_law :
    (∀ last timeout now : Int,
      evaluateRemainingLifetime last timeout now = max 0 (timeout - (now - last))) ∧
    (∀ last timeout now : Int, 0 ≤ evaluateRemainingLifetime last timeout now) ∧
    (∀ last timeout now : Int, last + timeout ≤ now →
      evaluateRemainingLifetime last timeout now = 0) ∧
    (∀ last timeout n1 n2 : Int, n1 ≤ n2 →
      evaluateRemainingLifetime last timeout n2 ≤ evaluateRemainingLifetime last timeout n1) := by
  refine ⟨?_, ?_, ?_, ?_⟩ <;> intros <;>
    simp only [evaluateRemainingLifetime, max_def] <;> split <;> try split
  all_goals omega

/-- Witness for C8 at concrete times. -/
theorem C8_lifetime_law_witness :
    evaluateRemainingLifetime 100 50 120 = max 0 (50 - (120 - 100)) ∧
    0 ≤ evaluateRemainingLifetime 100 50 120 ∧
    evaluateRemainingLifetime 100 50 200 = 0 ∧
    evaluateRemainingLifetime 100 50 130 ≤ evaluateRemainingLifetime 100 50 110 :=
  ⟨C8_lifetime_law.1 100 50 120, C8_lifetime_law.2.1 100 50 120,
   C8_lifetime_law.2.2.1 100 50 200 (by decide),
   C8_lifetime_law.2.2.2 100 50 110 130 (by decide)⟩

/-- C7: closing twice is idempotent — the second `close` call is a no-op
(it completes immediately, performs no network action and emits nothing),
`emitCloseEvent` is idempotent, and two consecutive closes of an open
session with the event not yet emitted produce exactly one `session_closed`
emission and exactly one network close request. -/
theorem C7_idempotent_close :
    (∀ s : CState, close (close s) = close s) ∧
    (∀ s : CState, emitCloseEvent (emitCloseEvent s) = emitCloseEvent s) ∧
    (∀ n m : Nat, ∀ p : Bool,
      (close (close ⟨true, false, n, m, p⟩)).emittedEvents = n + 1 ∧
      (close (close ⟨true, false, n, m, p⟩)).closeRequestsSent = m + 1) := by
  refine ⟨?_, ?_, ?_⟩
  · intro s
    cases hp : s.clientPresent <;>
      cases he : s.closeEventEmitted <;>
        simp [close, clientCloseSession, emitCloseEvent, hp, he]
  · intro s
    cases he : s.closeEventEmitted <;> simp [emitCloseEvent, he]
  · intro n m p
    constructor <;> rfl

/-- C3 counterexample: against a server that omits the results field, a
one-element array call does not yield an array of one default-filled
result — `read` delivers the empty array (length 0), and `write` fails its
length assertion instead of padding. -/
theorem C3_counterexample :
    (read_processResponse (α := Nat) true [(0 : Nat)] none false
        (some { serviceResult := StatusCodes.Good, results := none }) none
      = Except.ok (Shape.arr []) ∧
     ([] : List Nat).length ≠ [(0 : Nat)].length) ∧
    write_processResponse (α := Nat) true [(0 : Nat)] none false
        (some { serviceResult := StatusCodes.Good, results := none })
      = Except.error ErrMsg.assertionFailed := by
  exact ⟨⟨rfl, by decide⟩, rfl⟩

/-- C3 (amended): scalar in, scalar out (the first element of the results
array); array in, the results array out in server order — hence exactly N
results whenever the server returns N; an omitted results field is
defaulted to the explicit empty array, not padded to the request length;
and `write` enforces a strict length-equality assertion between request and
response arrays, failing when the lengths differ instead of padding. -/
theorem C3_shape_amended :
    (∀ (rs nodes : List Nat) (sr : Nat),
      read_processResponse false nodes none false
          (some { serviceResult := sr, results := some rs }) none
        = Except.ok (Shape.scalar rs[0]?)) ∧
    (∀ (rs nodes : List Nat) (sr : Nat),
      read_processResponse true nodes none false
          (some { serviceResult := sr, results := some rs }) none
        = Except.ok (Shape.arr rs)) ∧
    (∀ (nodes : List Nat) (isArray : Bool) (sr : Nat),
      read_processResponse (α := Nat) isArray nodes none false
          (some { serviceResult := sr, results := none }) none
        = Except.ok (if isArray then Shape.arr [] else Shape.scalar none)) ∧
    (∀ (rs nodes : List Nat) (isArray : Bool),
      write_processResponse isArray nodes none false
          (some { serviceResult := StatusCodes.Good, results := some rs })
        = if nodes.length = rs.length then
            Except.ok (if isArray then Shape.arr rs else Shape.scalar rs[0]?)
          else Except.error ErrMsg.assertionFailed) := by
  refine ⟨?_, ?_, ?_, ?_⟩
  · intro rs nodes sr
    rfl
  · intro rs nodes sr
    rfl
  · intro nodes isArray sr
    cases isArray <;> rfl
  · intro rs nodes isArray
    simp only [write_processResponse, StatusCodes.Good]
    norm_num

/-- C10: a transaction dispatched on a non-closed session while the secure
channel is not open fails immediately with `Invalid Channel
BadConnectionClosed`; the state is returned unchanged, so nothing was
handed to the channel adapter (`sendCount`), `lastRequestSentTime` was not
updated and the pending queue was not touched; the same holds for the full
dispatch entry when the pending queue is empty. -/
theorem C10_broken_channel_fast_failure :
    (∀ (now : Int) (chan : Nat → ChanOutcome) (st : FState),
      st.clientPresent = true → st.channelValid = false →
      _performMessageTransaction now chan st
        = ((some ErrMsg.invalidChannel, none), st)) ∧
    (∀ (now : Int) (chan : Nat → ChanOutcome) (repairResult : Option ErrMsg)
        (st : FState),
      st.clientPresent = true → st.channelValid = false → st.pendingCount = 0 →
      performMessageTransaction now chan repairResult st ReqKind.other
        = (DispatchOut.completed (some ErrMsg.invalidChannel) none, st)) := by
  constructor
  · intro now chan st h1 h2
    simp [_performMessageTransaction, h1, h2]
  · intro now chan repairResult st h1 h2 h3
    simp [performMessageTransaction, reprocessRequest, _performMessageTransaction,
      privileged, h1, h2, h3, mentionsBadSessionIdInvalid]

/-- Witness for C10 on a concrete broken-channel state. -/
theorem C10_broken_channel_fast_failure_witness :
    _performMessageTransaction 7 (fun _ => ChanOutcome.ok 0)
        { clientPresent := true, channelValid := false, reconnectingFlag := false,
          closeEventEmitted := false, recursive_repair_detector := 0,
          lastRequestSentTime := 3, pendingCount := 0, sendCount := 0,
          repairsStarted := 0 }
      = ((some ErrMsg.invalidChannel, none),
         { clientPresent := true, channelValid := false, reconnectingFlag := false,
           closeEventEmitted := false, recursive_repair_detector := 0,
           lastRequestSentTime := 3, pendingCount := 0, sendCount := 0,
           repairsStarted := 0 }) :=
  C10_broken_channel_fast_failure.1 7 (fun _ => ChanOutcome.ok 0) _ rfl rfl

/-- C5: every transaction submitted after the session has been closed fails
immediately — `performMessageTransaction` answers `Session has been closed
...` when the client is detached, and `_defaultRequest` answers
`ClientSession is closed !` once the close event has been emitted; in both
cases the state is returned unchanged, so nothing reached the channel
adapter and nothing was enqueued. -/
theorem C5_closed_session_short_circuit :
    (∀ (now : Int) (chan : Nat → ChanOutcome) (repairResult : Option ErrMsg)
        (st : FState) (kind : ReqKind),
      st.clientPresent = false →
      performMessageTransaction now chan repairResult st kind
        = (DispatchOut.completed (some ErrMsg.sessionClosed) none, st)) ∧
    (∀ (now : Int) (chan : Nat → ChanOutcome) (repairResult : Option ErrMsg)
        (st : FState) (kind : ReqKind),
      st.closeEventEmitted = true →
      _defaultRequest now chan repairResult st kind
        = (DispatchOut.completed (some ErrMsg.clientSessionClosed) none, st)) := by
  constructor
  · intro now chan repairResult st kind h
    simp [performMessageTransaction, h]
  · intro now chan repairResult st kind h
    simp [_defaultRequest, h]

/-- Witness for C5 on a concrete closed-session state. -/
theorem C5_closed_session_short_circuit_witness :
    performMessageTransaction 1 (fun _ => ChanOutcome.ok 0) none
        { clientPresent := false, channelValid := true, reconnectingFlag := false,
          closeEventEmitted := false, recursive_repair_detector := 0,
          lastRequestSentTime := 0, pendingCount := 0, sendCount := 0,
          repairsStarted := 0 } ReqKind.other
      = (DispatchOut.completed (some ErrMsg.sessionClosed) none,
         { clientPresent := false, channelValid := true, reconnectingFlag := false,
           closeEventEmitted := false, recursive_repair_detector := 0,
           lastRequestSentTime := 0, pendingCount := 0, sendCount := 0,
           repairsStarted := 0 }) :=
  C5_closed_session_short_circuit.1 1 (fun _ => ChanOutcome.ok 0) none _ ReqKind.other rfl

/-- C6: the three privileged request kinds — `PublishRequest`,
`ActivateSessionRequest` and `CloseSessionRequest` — bypass the pending
queue entirely: for every state of a non-closed session, also with a
non-empty pending queue, they are handed straight to
`_performMessageTransaction`; the queue is unchanged and, when the channel
is open, exactly one request is sent to the channel adapter. -/
theorem C6_privileged_bypass :
    ∀ (now : Int) (chan : Nat → ChanOutcome) (repairResult : Option ErrMsg)
      (st : FState) (kind : ReqKind),
      st.clientPresent = true → privileged kind = true →
      (performMessageTransaction now chan repairResult st kind
        = ((fun r => (DispatchOut.completed r.1.1 r.1.2, r.2))
            (_performMessageTransaction now chan st))) ∧
      (performMessageTransaction now chan repairResult st kind).2.pendingCount
        = st.pendingCount ∧
      (st.channelValid = true →
        (performMessageTransaction now chan repairResult st kind).2.sendCount
          = st.sendCount + 1) := by
  intro now chan repairResult st kind h1 h2
  refine ⟨?_, ?_, ?_⟩
  · simp [performMessageTransaction, h1, h2]
  · cases hv : st.channelValid <;>
      simp [performMessageTransaction, _performMessageTransaction, h1, h2, hv]
  · intro hv
    simp [performMessageTransaction, _performMessageTransaction, h1, h2, hv]

/-- Witness for C6: a `PublishRequest` submitted while three transactions
are pending is sent at once. -/
theorem C6_privileged_bypass_witness :
    (performMessageTransaction 1 (fun _ => ChanOutcome.ok 0) none
        { clientPresent := true, channelValid := true, reconnectingFlag := false,
          closeEventEmitted := false, recursive_repair_detector := 0,
          lastRequestSentTime := 0, pendingCount := 3, sendCount := 0,
          repairsStarted := 0 } ReqKind.publish
      = ((fun r => (DispatchOut.completed r.1.1 r.1.2, r.2))
          (_performMessageTransaction 1 (fun _ => ChanOutcome.ok 0)
            { clientPresent := true, channelValid := true, reconnectingFlag := false,
              closeEventEmitted := false, recursive_repair_detector := 0,
              lastRequestSentTime := 0, pendingCount := 3, sendCount := 0,
              repairsStarted := 0 }))) ∧
    (performMessageTransaction 1 (fun _ => ChanOutcome.ok 0) none
        { clientPresent := true, channelValid := true, reconnectingFlag := false,
          closeEventEmitted := false, recursive_repair_detector := 0,
          lastRequestSentTime := 0, pendingCount := 3, sendCount := 0,
          repairsStarted := 0 } ReqKind.publish).2.pendingCount = 3 ∧
    ((true : Bool) = true →
      (performMessageTransaction 1 (fun _ => ChanOutcome.ok 0) none
        { clientPresent := true, channelValid := true, reconnectingFlag := false,
          closeEventEmitted := false, recursive_repair_detector := 0,
          lastRequestSentTime := 0, pendingCount := 3, sendCount := 0,
          repairsStarted := 0 } ReqKind.publish).2.sendCount = 0 + 1) :=
  C6_privileged_bypass 1 (fun _ => ChanOutcome.ok 0) none _ ReqKind.publish rfl rfl

/-- C9: an `ActivateSessionRequest` is excluded from the invalid-session
retry routing — it is dispatched through the privileged direct path, and
even when `#reprocessRequest` handles it and the transaction fails with an
error whose message mentions `BadSessionIdInvalid`, the error is returned
directly to the caller: no `session_restored` wait is registered and no
repair sequence is started. -/
theorem C9_activate_session_excluded_from_repair :
    (∀ (now : Int) (chan : Nat → ChanOutcome) (repairResult : Option ErrMsg)
        (st : FState),
      st.clientPresent = true →
      performMessageTransaction now chan repairResult st ReqKind.activateSession
        = ((fun r => (DispatchOut.completed r.1.1 r.1.2, r.2))
            (_performMessageTransaction now chan st))) ∧
    (∀ (now : Int) (chan : Nat → ChanOutcome) (repairResult : Option ErrMsg)
        (st : FState) (e : ErrMsg),
      (_performMessageTransaction now chan st).1.1 = some e →
      reprocessRequest now chan repairResult st ReqKind.activateSession
        = (DispatchOut.completed (some e) (_performMessageTransaction now chan st).1.2,
           (_performMessageTransaction now chan st).2)) ∧
    (∀ (now : Int) (chan : Nat → ChanOutcome) (repairResult : Option ErrMsg)
        (st : FState),
      (reprocessRequest now chan repairResult st ReqKind.activateSession).1
          ≠ DispatchOut.waitingRestore ∧
      (reprocessRequest now chan repairResult st ReqKind.activateSession).2.repairsStarted
          = st.repairsStarted) := by
  refine ⟨?_, ?_, ?_⟩
  · intro now chan repairResult st h
    simp [performMessageTransaction, h, privileged]
  · intro now chan repairResult st e h
    simp [reprocessRequest, h]
  · intro now chan repairResult st
    have hp := _performMessageTransaction_repairsStarted now chan st
    cases hr : (_performMessageTransaction now chan st).1.1 <;>
      simp [reprocessRequest, hr, hp]

/-- Witness for C9: a concrete activate-session transaction failing with
`BadSessionIdInvalid` is answered with that very error. -/
theorem C9_activate_session_excluded_from_repair_witness :
    reprocessRequest 9 invalidThenGoodChan none (readyState 2) ReqKind.activateSession
      = (DispatchOut.completed
          (some (ErrMsg.transport StatusCodes.BadSessionIdInvalid))
          (_performMessageTransaction 9 invalidThenGoodChan (readyState 2)).1.2,
         (_performMessageTransaction 9 invalidThenGoodChan (readyState 2)).2) :=
  C9_activate_session_excluded_from_repair.2.1 9 invalidThenGoodChan none
    (readyState 2) (ErrMsg.transport StatusCodes.BadSessionIdInvalid) rfl

/-- C4: a non-privileged, non-activate transaction that fails with an
invalid-session error while the client is not reconnecting triggers one
repair sequence; if the repair fails, that error is surfaced to the caller;
if it succeeds, the request is replayed directly through
`_performMessageTransaction` (the pending queue stays empty and untouched)
and the caller receives the replayed transaction result — not the original
invalid-session failure. -/
theorem C4_repair_and_replay :
    ∀ (now t0 : Int) (chan : Nat → ChanOutcome),
      chan 0 = ChanOutcome.err StatusCodes.BadSessionIdInvalid →
      (∀ e : ErrMsg,
        performMessageTransaction now chan (some e) (readyState t0) ReqKind.other
          = (DispatchOut.completed (some e) none,
             { readyState t0 with
                lastRequestSentTime := now, sendCount := 1, repairsStarted := 1 })) ∧
      performMessageTransaction now chan none (readyState t0) ReqKind.other
        = (DispatchOut.completed (outcomeToResult (chan 1)).1
             (outcomeToResult (chan 1)).2,
           { readyState t0 with
              lastRequestSentTime := now, sendCount := 2, repairsStarted := 1 }) := by
  intro now t0 chan h
  constructor
  · intro e
    simp [performMessageTransaction, reprocessRequest, _performMessageTransaction,
      recreate_session_and_reperform_transaction, readyState, privileged, h,
      outcomeToResult, mentionsBadSessionIdInvalid]
  · simp [performMessageTransaction, reprocessRequest, _performMessageTransaction,
      recreate_session_and_reperform_transaction, readyState, privileged, h,
      outcomeToResult, mentionsBadSessionIdInvalid]

/-- Witness for C4: the concrete scenario with a first invalid-session
failure and a successful repair; the caller receives the replayed
transaction result. -/
theorem C4_repair_and_replay_witness :
    performMessageTransaction 9 invalidThenGoodChan none (readyState 2) ReqKind.other
      = (DispatchOut.completed (outcomeToResult (invalidThenGoodChan 1)).1
           (outcomeToResult (invalidThenGoodChan 1)).2,
         { readyState 2 with
            lastRequestSentTime := 9, sendCount := 2, repairsStarted := 1 }) :=
  (C4_repair_and_replay 9 2 invalidThenGoodChan rfl).2

/-- Helper: one step of the repair machine preserves the guard
invariant. -/
theorem repairStep_preserves (s : RState) (e : REv) (h : RInv s) :
    RInv (repairStep s e) := by
  cases e with
  | attemptRepair =>
    by_cases hd : s.recursive_repair_detector ≥ 1
    · simpa [repairStep, hd, RInv] using h
    · cases ha : s.repairActive
      · have h0 : s.recursive_repair_detector = 0 := by
          rw [RInv, ha] at h
          simpa using h
        simp [repairStep, hd, RInv, h0]
      · have h1 : s.recursive_repair_detector = 1 := by
          rw [RInv, ha] at h
          simpa using h
        exact absurd h1 (by omega)
  | finishRepair =>
    cases ha : s.repairActive
    · simpa [repairStep, ha, RInv] using h
    · rw [RInv, ha] at h
      simp [repairStep, ha, RInv, h]

/-- Helper: the guard invariant holds along every run of the repair
machine. -/
theorem repairRun_preserves (es : List REv) (s : RState) (h : RInv s) :
    RInv (repairRun s es) := by
  induction es generalizing s with
  | nil => exact h
  | cons e es ih => exact ih _ (repairStep_preserves s e h)

/-- C2: starting from a freshly created session,
`recursive_repair_detector` never exceeds 1 along any interleaving of
repair attempts and repair completions; and an attempt that finds a repair
already in progress is answered immediately with `Cannot recreate session`
and changes nothing else — in particular it starts no second recreation
sequence (`repairsStarted` is unchanged). -/
theorem C2_single_flight_repair :
    (∀ es : List REv,
      (repairRun repairInit es).recursive_repair_detector ≤ 1) ∧
    (∀ s : RState, s.recursive_repair_detector ≥ 1 →
      repairStep s REv.attemptRepair
        = { s with failFastErrors := s.failFastErrors ++ [ErrMsg.cannotRecreate] }) := by
  constructor
  · intro es
    have h := repairRun_preserves es repairInit (by simp [RInv, repairInit])
    rw [RInv] at h
    split at h <;> omega
  · intro s hd
    simp [repairStep, hd]

/-- Witness for C2: a concrete interleaving — attempt, second attempt
during the repair, completion — and a concrete guarded state. -/
theorem C2_single_flight_repair_witness :
    (repairRun repairInit
        [REv.attemptRepair, REv.attemptRepair, REv.finishRepair]).recursive_repair_detector
      ≤ 1 ∧
    repairStep { recursive_repair_detector := 1, repairActive := true,
                 repairsStarted := 1, failFastErrors := [] } REv.attemptRepair
      = { recursive_repair_detector := 1, repairActive := true,
          repairsStarted := 1, failFastErrors := [ErrMsg.cannotRecreate] } :=
  ⟨C2_single_flight_repair.1 [REv.attemptRepair, REv.attemptRepair, REv.finishRepair],
   C2_single_flight_repair.2 _ (by decide)⟩

/-- Helper: a successful `takeInFlight` returns an entry for the requested
id and splits the in-flight list around it. -/
theorem takeInFlight_eq :
    ∀ {l : List ((Nat × Origin) × Bool)} {t : Nat}
      {e : (Nat × Origin) × Bool} {rest : List ((Nat × Origin) × Bool)},
      takeInFlight l t = some (e, rest) →
      e.1.1 = t ∧ ∃ l1 l2, l = l1 ++ e :: l2 ∧ rest = l1 ++ l2 := by
  intro l
  induction l with
  | nil =>
    intro t e rest h
    simp [takeInFlight] at h
  | cons p l ih =>
    intro t e rest h
    by_cases hp : p.1.1 = t
    · rw [takeInFlight, if_pos hp] at h
      obtain ⟨hpe, hrest⟩ : p = e ∧ l = rest := by simpa using h
      subst hpe
      exact ⟨hp, [], l, by simp, by simp [hrest]⟩
    · rw [takeInFlight, if_neg hp] at h
      cases hq : takeInFlight l t with
      | none =>
        rw [hq] at h
        simp at h
      | some pr =>
        obtain ⟨q1, q2⟩ := pr
        rw [hq] at h
        obtain ⟨he, hrest⟩ : q1 = e ∧ p :: q2 = rest := by simpa using h
        subst he
        obtain ⟨hid, l1, l2, hl, hr⟩ := ih hq
        exact ⟨hid, p :: l1, l2, by simp [hl], by simp [← hrest, hr]⟩

/-- Helper: `queuedIds` distributes over append. -/
theorem queuedIds_append (l1 l2 : List (Nat × Origin)) :
    queuedIds (l1 ++ l2) = queuedIds l1 ++ queuedIds l2 := by
  simp [queuedIds]

/-- Helper: `queuedIds` on a cons. -/
theorem queuedIds_cons (p : Nat × Origin) (l : List (Nat × Origin)) :
    queuedIds (p :: l)
      = if p.2 = Origin.queued then p.1 :: queuedIds l else queuedIds l := by
  by_cases h : p.2 = Origin.queued <;> simp [queuedIds, List.filter_cons, h]

/-- Helper: `queuedIds` of the empty list. -/
theorem queuedIds_nil : queuedIds [] = [] := rfl

/-- Helper: there are no more queued ids than entries. -/
theorem queuedIds_length_le (l : List (Nat × Origin)) :
    (queuedIds l).length ≤ l.length := by
  rw [queuedIds, List.length_map]
  exact List.length_filter_le _ _

/-- Helper: `flightQueuedIds` distributes over append. -/
theorem flightQueuedIds_append (l1 l2 : List ((Nat × Origin) × Bool)) :
    flightQueuedIds (l1 ++ l2) = flightQueuedIds l1 ++ flightQueuedIds l2 := by
  simp [flightQueuedIds, queuedIds_append]

/-- Helper: `flightQueuedIds` on a cons. -/
theorem flightQueuedIds_cons (e : (Nat × Origin) × Bool)
    (l : List ((Nat × Origin) × Bool)) :
    flightQueuedIds (e :: l)
      = if e.1.2 = Origin.queued then e.1.1 :: flightQueuedIds l
        else flightQueuedIds l := by
  simp [flightQueuedIds, queuedIds_cons]

/-- Helper: `flightQueuedIds` of the empty list. -/
theorem flightQueuedIds_nil : flightQueuedIds [] = [] := rfl

/-- Helper: `drainFlights` distributes over append. -/
theorem drainFlights_append (l1 l2 : List ((Nat × Origin) × Bool)) :
    drainFlights (l1 ++ l2) = drainFlights l1 ++ drainFlights l2 := by
  simp [drainFlights]

/-- Helper: `drainFlights` on a cons. -/
theorem drainFlights_cons (e : (Nat × Origin) × Bool)
    (l : List ((Nat × Origin) × Bool)) :
    drainFlights (e :: l)
      = if e.2 = false then e :: drainFlights l else drainFlights l := by
  by_cases h : e.2 = false <;> simp [drainFlights, List.filter_cons, h]

/-- Helper: `drainFlights` of the empty list. -/
theorem drainFlights_nil : drainFlights [] = [] := rfl

/-- Helper: `bareQueuedIds` distributes over append. -/
theorem bareQueuedIds_append (l1 l2 : List ((Nat × Origin) × Bool)) :
    bareQueuedIds (l1 ++ l2) = bareQueuedIds l1 ++ bareQueuedIds l2 := by
  simp [bareQueuedIds, queuedIds_append]

/-- Helper: `bareQueuedIds` on a cons. -/
theorem bareQueuedIds_cons (e : (Nat × Origin) × Bool)
    (l : List ((Nat × Origin) × Bool)) :
    bareQueuedIds (e :: l)
      = if e.2 = true then
          (if e.1.2 = Origin.queued then e.1.1 :: bareQueuedIds l
           else bareQueuedIds l)
        else bareQueuedIds l := by
  by_cases h : e.2 = true
  · by_cases h2 : e.1.2 = Origin.queued <;>
      simp [bareQueuedIds, List.filter_cons, h, h2, queuedIds_cons]
  · simp [bareQueuedIds, List.filter_cons, h]

/-- Helper: `bareQueuedIds` of the empty list. -/
theorem bareQueuedIds_nil : bareQueuedIds [] = [] := rfl

/-- Helper: every queued in-flight entry is a drain entry or a bare queued
replay. -/
theorem flightQueuedIds_length_le (l : List ((Nat × Origin) × Bool)) :
    (flightQueuedIds l).length
      ≤ (drainFlights l).length + (bareQueuedIds l).length := by
  induction l with
  | nil => simp [flightQueuedIds_nil, drainFlights_nil, bareQueuedIds_nil]
  | cons e l ih =>
    rw [flightQueuedIds_cons, drainFlights_cons, bareQueuedIds_cons]
    cases hb : e.2 <;> by_cases ho : e.1.2 = Origin.queued <;>
      simp [hb, ho] <;> omega

/-- Helper: re-sending the parked transactions keeps their queued ids. -/
theorem flightQueuedIds_park (l : List (Nat × Origin)) :
    flightQueuedIds (l.map (fun p => (p, false))) = queuedIds l := by
  induction l with
  | nil => rfl
  | cons p l ih =>
    rw [List.map_cons, flightQueuedIds_cons, queuedIds_cons]
    by_cases hp : p.2 = Origin.queued <;> simp [hp, ih]

/-- Helper: every re-sent parked transaction is a drain entry. -/
theorem drainFlights_park (l : List (Nat × Origin)) :
    drainFlights (l.map (fun p => (p, false))) = l.map (fun p => (p, false)) := by
  induction l with
  | nil => rfl
  | cons p l ih =>
    rw [List.map_cons, drainFlights_cons]
    simp [ih]

/-- Helper: no re-sent parked transaction is a bare entry. -/
theorem bareQueuedIds_park (l : List (Nat × Origin)) :
    bareQueuedIds (l.map (fun p => (p, false))) = [] := by
  induction l with
  | nil => rfl
  | cons p l ih =>
    rw [List.map_cons, bareQueuedIds_cons]
    simp [ih]

/-- Helper: a list with an element in the middle and length at most one has
empty flanks. -/
theorem middle_nil {α : Type} {x : α} {l1 l2 : List α}
    (h : (l1 ++ x :: l2).length ≤ 1) : l1 = [] ∧ l2 = [] := by
  rw [List.length_append, List.length_cons] at h
  exact ⟨List.eq_nil_of_length_eq_zero (by omega),
         List.eq_nil_of_length_eq_zero (by omega)⟩

/-- Helper: a submission preserves the dispatcher invariant. -/
theorem submitStep_preserves (s : DState) (t : Nat) (kind : ReqKind)
    (h : DInv s) : DInv (submitStep s t kind) := by
  obtain ⟨h1, h2, h3⟩ := h
  rw [submitStep]
  by_cases hc : s.clientPresent = false
  · rw [if_pos hc]
    exact ⟨h1, h2, h3⟩
  · rw [if_neg hc]
    by_cases hk : privileged kind = true
    · rw [if_pos hk]
      refine ⟨?_, ?_, ?_⟩
      · intro hne
        have hb := h1 hne
        simp only [dsend]
        simpa [drainFlights_append, drainFlights_cons, drainFlights_nil,
          bareQueuedIds_append, bareQueuedIds_cons, bareQueuedIds_nil] using hb
      · simpa [dsend, liveQueuedIds, flightQueuedIds_append,
          flightQueuedIds_cons, flightQueuedIds_nil] using h2
      · simpa [dsend, liveQueuedIds, flightQueuedIds_append,
          flightQueuedIds_cons, flightQueuedIds_nil] using h3
    · rw [if_neg hk]
      by_cases hq : s.queue = []
      · rw [if_neg (by simpa using hq)]
        refine ⟨?_, ?_, ?_⟩
        · intro hne
          simp only [dsend] at hne
          exact absurd hq (by simpa using hne)
        · simpa [dsend, liveQueuedIds, flightQueuedIds_append,
            flightQueuedIds_cons, flightQueuedIds_nil] using h2
        · rw [hq] at h3
          simp only [dsend]
          simpa [liveQueuedIds, flightQueuedIds_append, flightQueuedIds_cons,
            flightQueuedIds_nil, hq] using h3
      · rw [if_pos (by simpa using hq)]
        refine ⟨?_, ?_, ?_⟩
        · intro _
          exact h1 hq
        · exact h2
        · simpa using congrArg (fun l => l ++ [t]) h3

/-- Helper: removing one in-flight entry and completing its caller
preserves the dispatcher invariant.  This covers three completion shapes
that produce the same state: a bare completion, an ordinary completion
with an empty queue, and a repair failure. -/
theorem complete_remove_preserves (s : DState) (t : Nat) (o : Origin)
    (b : Bool) (l1 l2 : List ((Nat × Origin) × Bool))
    (hl : s.inFlight = l1 ++ ((t, o), b) :: l2)
    (h : DInv s) :
    DInv { s with inFlight := l1 ++ l2,
                  completed := s.completed ++ [(t, o)] } := by
  obtain ⟨h1, h2, h3⟩ := h
  refine ⟨?_, ?_, ?_⟩
  · intro hne
    have hb := h1 hne
    rw [hl] at hb
    cases b <;> cases o <;>
      (simp [drainFlights_append, drainFlights_cons, drainFlights_nil,
        bareQueuedIds_append, bareQueuedIds_cons, bareQueuedIds_nil,
        List.length_append] at hb ⊢ <;> omega)
  · have hb := h2
    simp only [liveQueuedIds, hl] at hb
    simp only [liveQueuedIds]
    cases o <;>
      (simp [flightQueuedIds_append, flightQueuedIds_cons, flightQueuedIds_nil,
        List.length_append] at hb ⊢ <;> omega)
  · simp only [liveQueuedIds, hl] at h3
    simp only [liveQueuedIds]
    cases o with
    | queued =>
      have hb := h2
      simp only [liveQueuedIds, hl, flightQueuedIds_append,
        flightQueuedIds_cons] at hb
      have hbm : ((flightQueuedIds l1 ++ t :: flightQueuedIds l2)
          ++ queuedIds s.parked).length ≤ 1 := hb
      have hlen := hbm
      simp only [List.length_append, List.length_cons] at hlen
      have hq1 : flightQueuedIds l1 = [] :=
        List.eq_nil_of_length_eq_zero (by omega)
      have hq2 : flightQueuedIds l2 = [] :=
        List.eq_nil_of_length_eq_zero (by omega)
      have hqp : queuedIds s.parked = [] :=
        List.eq_nil_of_length_eq_zero (by omega)
      simpa [flightQueuedIds_append, flightQueuedIds_cons, flightQueuedIds_nil,
        queuedIds_append, queuedIds_cons, queuedIds_nil, hq1, hq2, hqp] using h3
    | priv =>
      simpa [flightQueuedIds_append, flightQueuedIds_cons, flightQueuedIds_nil,
        queuedIds_append, queuedIds_cons, queuedIds_nil] using h3
    | direct =>
      simpa [flightQueuedIds_append, flightQueuedIds_cons, flightQueuedIds_nil,
        queuedIds_append, queuedIds_cons, queuedIds_nil] using h3

/-- Helper: a completion preserves the dispatcher invariant, whichever
branch of the completion callback runs. -/
theorem completeStep_preserves (s : DState) (t : Nat) (oc : DOutcome)
    (h : DInv s) : DInv (completeStep s t oc) := by
  cases htf : takeInFlight s.inFlight t with
  | none =>
    simpa only [completeStep, htf] using h
  | some pr =>
    obtain ⟨e, rest⟩ := pr
    obtain ⟨hid, l1, l2, hl, hr⟩ := takeInFlight_eq htf
    subst hr
    obtain ⟨⟨tid, o⟩, b⟩ := e
    have htid : tid = t := hid
    subst htid
    simp only [completeStep, htf]
    cases b with
    | true =>
      rw [if_pos rfl]
      exact complete_remove_preserves s tid o true l1 l2 hl h
    | false =>
      rw [if_neg (show ¬ (((tid, o), false).2 = true) from by simp)]
      cases oc with
      | ordinary =>
        dsimp only
        cases hqq : s.queue with
        | nil =>
          dsimp only
          have hres := complete_remove_preserves s tid o false l1 l2 hl h
          rw [hqq] at hres
          exact hres
        | cons u q =>
          obtain ⟨h1, h2, h3⟩ := h
          have hd := h1 (by simp [hqq])
          rw [hl, drainFlights_append, drainFlights_cons, bareQueuedIds_append,
            bareQueuedIds_cons] at hd
          have hdm : (drainFlights l1 ++ ((tid, o), false) :: drainFlights l2).length
              + s.parked.length
              + (bareQueuedIds l1 ++ bareQueuedIds l2).length ≤ 1 := hd
          have hlen := hdm
          simp only [List.length_append, List.length_cons] at hlen
          have hd1 : drainFlights l1 = [] :=
            List.eq_nil_of_length_eq_zero (by omega)
          have hd2 : drainFlights l2 = [] :=
            List.eq_nil_of_length_eq_zero (by omega)
          have hpk : s.parked = [] :=
            List.eq_nil_of_length_eq_zero (by omega)
          have hb1 : bareQueuedIds l1 = [] :=
            List.eq_nil_of_length_eq_zero (by omega)
          have hb2 : bareQueuedIds l2 = [] :=
            List.eq_nil_of_length_eq_zero (by omega)
          have hfq1 : flightQueuedIds l1 = [] := by
            have hle := flightQueuedIds_length_le l1
            rw [hd1, hb1] at hle
            exact List.eq_nil_of_length_eq_zero (by simpa using hle)
          have hfq2 : flightQueuedIds l2 = [] := by
            have hle := flightQueuedIds_length_le l2
            rw [hd2, hb2] at hle
            exact List.eq_nil_of_length_eq_zero (by simpa using hle)
          refine ⟨?_, ?_, ?_⟩
          · intro _
            simp [dsend, drainFlights_append, drainFlights_cons, drainFlights_nil,
              bareQueuedIds_append, bareQueuedIds_cons, bareQueuedIds_nil,
              hd1, hd2, hb1, hb2, hpk]
          · simp [dsend, liveQueuedIds, flightQueuedIds_append, flightQueuedIds_cons,
              flightQueuedIds_nil, hfq1, hfq2, hpk, queuedIds_nil]
          · cases o <;>
              simpa [dsend, liveQueuedIds, hl, hqq, hpk, flightQueuedIds_append,
                flightQueuedIds_cons, flightQueuedIds_nil, queuedIds_append,
                queuedIds_cons, queuedIds_nil, hfq1, hfq2] using h3
      | invalidSession repairOk =>
        dsimp only
        cases hrc : s.reconnectingFlag with
        | true =>
          rw [if_pos rfl]
          obtain ⟨h1, h2, h3⟩ := h
          refine ⟨?_, ?_, ?_⟩
          · intro hne
            have hb := h1 hne
            rw [hl] at hb
            simp [drainFlights_append, drainFlights_cons, drainFlights_nil,
              bareQueuedIds_append, bareQueuedIds_cons, bareQueuedIds_nil,
              List.length_append] at hb ⊢
            omega
          · have hb := h2
            cases o <;>
              (simp [liveQueuedIds, hl, flightQueuedIds_append, flightQueuedIds_cons,
                flightQueuedIds_nil, queuedIds_append, queuedIds_cons, queuedIds_nil,
                List.length_append] at hb ⊢ <;> omega)
          · cases o with
            | queued =>
              have hb := h2
              simp only [liveQueuedIds, hl, flightQueuedIds_append,
                flightQueuedIds_cons] at hb
              have hbm : ((flightQueuedIds l1 ++ tid :: flightQueuedIds l2)
                  ++ queuedIds s.parked).length ≤ 1 := hb
              have hlen := hbm
              simp only [List.length_append, List.length_cons] at hlen
              have hfq1 : flightQueuedIds l1 = [] :=
                List.eq_nil_of_length_eq_zero (by omega)
              have hfq2 : flightQueuedIds l2 = [] :=
                List.eq_nil_of_length_eq_zero (by omega)
              have hqp : queuedIds s.parked = [] :=
                List.eq_nil_of_length_eq_zero (by omega)
              simpa [liveQueuedIds, hl, flightQueuedIds_append, flightQueuedIds_cons,
                flightQueuedIds_nil, queuedIds_append, queuedIds_cons, queuedIds_nil,
                hfq1, hfq2, hqp] using h3
            | priv =>
              simpa [liveQueuedIds, hl, flightQueuedIds_append, flightQueuedIds_cons,
                queuedIds_append, queuedIds_cons, queuedIds_nil] using h3
            | direct =>
              simpa [liveQueuedIds, hl, flightQueuedIds_append, flightQueuedIds_cons,
                queuedIds_append, queuedIds_cons, queuedIds_nil] using h3
        | false =>
          rw [if_neg (show ¬ ((false : Bool) = true) from by simp)]
          cases repairOk with
          | false =>
            rw [if_neg (show ¬ ((false : Bool) = true) from by simp)]
            exact complete_remove_preserves s tid o false l1 l2 hl h
          | true =>
            rw [if_pos rfl]
            obtain ⟨h1, h2, h3⟩ := h
            refine ⟨?_, ?_, ?_⟩
            · intro hne
              have hb := h1 hne
              rw [hl] at hb
              cases o <;>
                (simp [drainFlights_append, drainFlights_cons, drainFlights_nil,
                  bareQueuedIds_append, bareQueuedIds_cons, bareQueuedIds_nil,
                  List.length_append] at hb ⊢ <;> omega)
            · have hb := h2
              cases o <;>
                (simp [liveQueuedIds, hl, flightQueuedIds_append,
                  flightQueuedIds_cons, flightQueuedIds_nil,
                  List.length_append] at hb ⊢ <;> omega)
            · cases o with
              | queued =>
                have hb := h2
                simp only [liveQueuedIds, hl, flightQueuedIds_append,
                  flightQueuedIds_cons] at hb
                have hbm : ((flightQueuedIds l1 ++ tid :: flightQueuedIds l2)
                    ++ queuedIds s.parked).length ≤ 1 := hb
                have hlen := hbm
                simp only [List.length_append, List.length_cons] at hlen
                have hfq1 : flightQueuedIds l1 = [] :=
                  List.eq_nil_of_length_eq_zero (by omega)
                have hfq2 : flightQueuedIds l2 = [] :=
                  List.eq_nil_of_length_eq_zero (by omega)
                have hqp : queuedIds s.parked = [] :=
                  List.eq_nil_of_length_eq_zero (by omega)
                simpa [liveQueuedIds, hl, flightQueuedIds_append,
                  flightQueuedIds_cons, flightQueuedIds_nil, queuedIds_append,
                  queuedIds_cons, queuedIds_nil, hfq1, hfq2, hqp] using h3
              | priv =>
                simpa [liveQueuedIds, hl, flightQueuedIds_append,
                  flightQueuedIds_cons, queuedIds_append, queuedIds_cons,
                  queuedIds_nil] using h3
              | direct =>
                simpa [liveQueuedIds, hl, flightQueuedIds_append,
                  flightQueuedIds_cons, queuedIds_append, queuedIds_cons,
                  queuedIds_nil] using h3

/-- Helper: firing the `session_restored` listeners preserves the
dispatcher invariant. -/
theorem restoredStep_preserves (s : DState) (h : DInv s) :
    DInv (restoredStep s) := by
  obtain ⟨h1, h2, h3⟩ := h
  refine ⟨?_, ?_, ?_⟩
  · intro hne
    have hb := h1 hne
    have hlen : (drainFlights (s.parked.map (fun p => (p, false)))).length
        = s.parked.length := by
      rw [drainFlights_park, List.length_map]
    simp [restoredStep, drainFlights_append, bareQueuedIds_append,
      bareQueuedIds_park, hlen, List.length_append]
    omega
  · have hb := h2
    simp [restoredStep, liveQueuedIds, flightQueuedIds_append, flightQueuedIds_park,
      queuedIds_nil, List.length_append] at hb ⊢
    omega
  · simpa [restoredStep, liveQueuedIds, flightQueuedIds_append, flightQueuedIds_park,
      queuedIds_nil] using h3

/-- Helper: one dispatcher step preserves the invariant. -/
theorem dstep_preserves (s : DState) (e : DEv) (h : DInv s) :
    DInv (dstep s e) := by
  cases e with
  | submit t kind => exact submitStep_preserves s t kind h
  | complete t oc => exact completeStep_preserves s t oc h
  | setReconnecting b =>
    obtain ⟨h1, h2, h3⟩ := h
    exact ⟨h1, h2, h3⟩
  | sessionRestored => exact restoredStep_preserves s h

/-- Helper: the invariant holds along every dispatcher run. -/
theorem drun_preserves (es : List DEv) (s : DState) (h : DInv s) :
    DInv (drun s es) := by
  induction es generalizing s with
  | nil => exact h
  | cons e es ih => exact ih _ (dstep_preserves s e h)

/-- Helper: the reconnection-scenario initial states satisfy the
invariant. -/
theorem initState_inv (present r : Bool) (q : List Nat) (d : Option Nat) :
    DInv (initState present r q d) := by
  cases d with
  | none =>
    refine ⟨?_, ?_, ?_⟩ <;>
      simp [initState, liveQueuedIds, flightQueuedIds_nil, queuedIds_nil,
        drainFlights_nil, bareQueuedIds_nil]
  | some t =>
    refine ⟨?_, ?_, ?_⟩
    · intro _
      simp [initState, drainFlights_cons, drainFlights_nil, bareQueuedIds_cons,
        bareQueuedIds_nil]
    · simp [initState, liveQueuedIds, flightQueuedIds_cons, flightQueuedIds_nil,
        queuedIds_nil]
    · simp [initState, liveQueuedIds, flightQueuedIds_cons, flightQueuedIds_nil,
        queuedIds_nil]

/-- C1 counterexample: the original ordering law claims that after any
transaction completes — success, ordinary failure, or post-repair — the
head of the pending queue is popped and dispatched.  In the source, the
invalid-session branch of the completion callback returns before the drain
(line 1518) and the repair path completes the caller through the bare
callback (lines 2146 and 2148), so a queued transaction that triggers a
successful repair completes without the queue being drained.  Concretely:
queue `[1, 2]` with transaction `0` in flight; `0` completes ordinarily
and pops `1`; `1` fails with an invalid-session error, the repair
succeeds, the replay is sent and completes — transaction `1` has completed
(post-repair), yet `2` still sits at the head of the queue with nothing in
flight and nothing parked, and was never sent (`sentLog = [1, 1]`). -/
theorem C1_counterexample :
    (drun (initState true false [1, 2] (some 0))
        [DEv.complete 0 DOutcome.ordinary,
         DEv.complete 1 (DOutcome.invalidSession true),
         DEv.complete 1 DOutcome.ordinary]).completed
      = [(0, Origin.direct), (1, Origin.queued)] ∧
    (drun (initState true false [1, 2] (some 0))
        [DEv.complete 0 DOutcome.ordinary,
         DEv.complete 1 (DOutcome.invalidSession true),
         DEv.complete 1 DOutcome.ordinary]).queue = [2] ∧
    (drun (initState true false [1, 2] (some 0))
        [DEv.complete 0 DOutcome.ordinary,
         DEv.complete 1 (DOutcome.invalidSession true),
         DEv.complete 1 DOutcome.ordinary]).inFlight = [] ∧
    (drun (initState true false [1, 2] (some 0))
        [DEv.complete 0 DOutcome.ordinary,
         DEv.complete 1 (DOutcome.invalidSession true),
         DEv.complete 1 DOutcome.ordinary]).parked = [] ∧
    (drun (initState true false [1, 2] (some 0))
        [DEv.complete 0 DOutcome.ordinary,
         DEv.complete 1 (DOutcome.invalidSession true),
         DEv.complete 1 DOutcome.ordinary]).sentLog = [1, 1] := by
  refine ⟨?_, ?_, ?_, ?_, ?_⟩ <;> decide

/-- C1 (amended): ordering law of the transaction dispatcher.  A
transaction submitted while the pending queue is non-empty is appended to
the tail of the queue — nothing is sent, nothing else changes.  After a
transaction completes through the ordinary branch of the dispatch
continuation (success, or a failure not matching the invalid-session
class), the head of the queue, if non-empty, is popped and dispatched by
the same procedure; a completion delivered through the repair path instead
fires the bare caller callback and leaves the queue untouched (post-repair
replay shown here; repair failure and the repair guard complete without
touching the queue either), and an invalid-session failure while
reconnecting parks the transaction without completing it or draining.
Along every event trace from a reconnection-scenario initial state the
dispatcher invariant holds: at most one queued transaction is live (in
flight or parked) at a time, and the arrival log of queued transactions
always equals the completed queued transactions (in completion order)
followed by the live one and the queue — so the queued transactions that
do complete, complete in strict submission (FIFO) order. -/
theorem C1_ordering_amended :
    (∀ (present r : Bool) (q : List Nat) (d : Option Nat) (es : List DEv),
      DInv (drun (initState present r q d) es)) ∧
    (∀ (s : DState) (t : Nat), s.clientPresent = true → s.queue ≠ [] →
      dstep s (DEv.submit t ReqKind.other)
        = { s with queue := s.queue ++ [t], qlog := s.qlog ++ [t] }) ∧
    (∀ (s : DState) (t : Nat) (o : Origin) (u : Nat) (q : List Nat),
      s.inFlight = [((t, o), false)] → s.queue = u :: q →
      dstep s (DEv.complete t DOutcome.ordinary)
        = dsend { s with inFlight := [],
                         completed := s.completed ++ [(t, o)],
                         queue := q }
            u Origin.queued false) ∧
    (∀ (s : DState) (t : Nat) (o : Origin),
      s.inFlight = [((t, o), false)] → s.reconnectingFlag = false →
      dstep s (DEv.complete t (DOutcome.invalidSession true))
        = { s with inFlight := [((t, o), true)],
                   sentLog := s.sentLog ++ [t] }) := by
  refine ⟨?_, ?_, ?_, ?_⟩
  · intro present r q d es
    exact drun_preserves es _ (initState_inv present r q d)
  · intro s t hc hq
    rw [dstep, submitStep, if_neg (by simp [hc]), if_neg (by decide), if_pos hq]
  · intro s t o u q h1 h2
    have htk : takeInFlight s.inFlight t = some (((t, o), false), []) := by
      rw [h1]
      simp [takeInFlight]
    simp [dstep, completeStep, htk, h2, dsend]
  · intro s t o h1 h2
    have htk : takeInFlight s.inFlight t = some (((t, o), false), []) := by
      rw [h1]
      simp [takeInFlight]
    simp [dstep, completeStep, htk, h2]

/-- Witness for C1 (amended): a concrete invariant run over a trace that
parks, restores, drains and replays; a concrete tail-append; a concrete
ordinary completion that pops the head; and a concrete post-repair replay
that leaves the queue untouched. -/
theorem C1_ordering_amended_witness :
    DInv (drun (initState true false [1, 2] (some 0))
      [DEv.complete 0 DOutcome.ordinary,
       DEv.submit 3 ReqKind.other,
       DEv.complete 1 (DOutcome.invalidSession true),
       DEv.complete 1 DOutcome.ordinary]) ∧
    dstep ⟨true, false, [4], [], [], [], [], [], [4]⟩
        (DEv.submit 9 ReqKind.other)
      = { (⟨true, false, [4], [], [], [], [], [], [4]⟩ : DState) with
            queue := [4] ++ [9], qlog := [4] ++ [9] } ∧
    dstep ⟨true, false, [7, 8], [((5, Origin.direct), false)], [], [], [], [], [7, 8]⟩
        (DEv.complete 5 DOutcome.ordinary)
      = dsend { (⟨true, false, [7, 8], [((5, Origin.direct), false)], [], [], [], [],
                  [7, 8]⟩ : DState) with
            inFlight := [],
            completed := [] ++ [(5, Origin.direct)],
            queue := [8] }
          7 Origin.queued false ∧
    dstep ⟨true, false, [7], [((5, Origin.queued), false)], [], [], [], [], [7]⟩
        (DEv.complete 5 (DOutcome.invalidSession true))
      = { (⟨true, false, [7], [((5, Origin.queued), false)], [], [], [], [], [7]⟩ : DState) with
            inFlight := [((5, Origin.queued), true)],
            sentLog := [] ++ [5] } :=
  ⟨C1_ordering_amended.1 true false [1, 2] (some 0)
      [DEv.complete 0 DOutcome.ordinary,
       DEv.submit 3 ReqKind.other,
       DEv.complete 1 (DOutcome.invalidSession true),
       DEv.complete 1 DOutcome.ordinary],
   C1_ordering_amended.2.1 _ 9 rfl (by decide),
   C1_ordering_amended.2.2.1 _ 5 Origin.direct 7 [8] rfl rfl,
   C1_ordering_amended.2.2.2 _ 5 Origin.queued rfl rfl⟩
end ClientSessionModel
